import Mathlib

/-!
Verification of the PNW Native Art Studio drawing application (src/app.js).

The application is a single-file, event-driven SVG drawing tool.  We embed it
shallowly: the mutable `state` object together with the mutable DOM pieces the
handlers touch (the two shape layers, the status message, the coordinate
read-out) become one Lean record `AppState`, and every event handler becomes a
pure function from the old state (plus the event data) to the new state.
Numbers are modelled by the real numbers; the JavaScript `Math.hypot` is the
real Euclidean norm and `Math.round` is the round-half-up function `round`.
-/

namespace PNW

/-- A point in SVG user coordinates, as produced by `svgPoint`. -/
structure Point where
  x : ℝ
  y : ℝ

/-- An SVG circle element as created by `drawCircle`: the five attributes the
function sets (besides the tag itself). -/
structure Circle where
  cx : ℝ
  cy : ℝ
  r : ℝ
  fill : String
  stroke : String
  strokeWidth : ℝ

/-- The optional style overrides accepted by `drawCircle` (the `opts` object):
`none` models an absent property, which the `??` operator replaces by the
corresponding `state` default. -/
structure Opts where
  fill : Option String
  stroke : Option String
  strokeWidth : Option ℝ

/-- The `opts = {}` default argument of `drawCircle`. -/
def noOpts : Opts := ⟨none, none, none⟩

/-- The whole mutable state of the application: the fields of the `state`
object of app.js, plus the mutable DOM content the handlers write to.  The two
layer elements are modelled by the ordered lists of circle elements they
contain (`innerHTML = []` empties the list, `appendChild` appends at the end). -/
structure AppState where
  tool : String
  fillColor : String
  strokeColor : String
  strokeWidth : ℝ
  dragging : Bool
  startX : ℝ
  startY : ℝ
  drawingLayer : List Circle
  previewLayer : List Circle
  statusMsg : String
  coords : String

/-- The initial state: the literal `state` object of app.js, with all DOM
containers empty. -/
noncomputable def initState : AppState :=
  { tool := "circle"
    fillColor := "#c0392b"
    strokeColor := "#1a1a1a"
    strokeWidth := 3
    dragging := false
    startX := 0
    startY := 0
    drawingLayer := []
    previewLayer := []
    statusMsg := ""
    coords := "" }

/-- drawCircle — creates an SVG circle element.  Follows app.js lines 53-66:
each absent option falls back to the current `state` style, and the radius
attribute is `Math.max(1, r)`. -/
def drawCircle (st : AppState) (cx cy r : ℝ) (opts : Opts) : Circle :=
  { cx := cx
    cy := cy
    r := max 1 r
    fill := opts.fill.getD st.fillColor
    stroke := opts.stroke.getD st.strokeColor
    strokeWidth := opts.strokeWidth.getD st.strokeWidth }

/-- The geometry the `svgPoint` helper reads: the bounding client rect of the
canvas and its viewBox dimensions. -/
structure CanvasGeom where
  rectLeft : ℝ
  rectTop : ℝ
  rectWidth : ℝ
  rectHeight : ℝ
  viewBoxWidth : ℝ
  viewBoxHeight : ℝ

/-- svgPoint — converts client (mouse-event) coordinates to document (SVG
user) coordinates, app.js lines 70-78. -/
noncomputable def svgPoint (g : CanvasGeom) (clientX clientY : ℝ) : Point :=
  { x := (clientX - g.rectLeft) * (g.viewBoxWidth / g.rectWidth)
    y := (clientY - g.rectTop) * (g.viewBoxHeight / g.rectHeight) }

/-- JavaScript `Math.hypot(dx, dy)`: the Euclidean norm. -/
noncomputable def hypot (dx dy : ℝ) : ℝ := Real.sqrt (dx ^ 2 + dy ^ 2)

/-- The mousedown handler, app.js lines 82-89.  `pt` is the `svgPoint` of the
event; a non-primary button returns before touching anything. -/
def mousedown (st : AppState) (button : ℕ) (pt : Point) : AppState :=
  if button ≠ 0 then st
  else { st with dragging := true, startX := pt.x, startY := pt.y }

/-- The mousemove handler, app.js lines 91-109: always updates the coordinate
read-out; while dragging with the circle tool it replaces the preview layer by
one semi-transparent preview circle centred at the drag start. -/
noncomputable def mousemove (st : AppState) (pt : Point) : AppState :=
  let st1 := { st with
    coords := "x: " ++ toString (round pt.x) ++ "  y: " ++ toString (round pt.y) }
  if st1.dragging = false then st1
  else
    let st2 := { st1 with previewLayer := [] }
    if st2.tool = "circle" then
      let dx := pt.x - st2.startX
      let dy := pt.y - st2.startY
      let r := hypot dx dy
      let preview := drawCircle st2 st2.startX st2.startY r
        ⟨some (st2.fillColor ++ "99"), none, none⟩
      { st2 with previewLayer := st2.previewLayer ++ [preview] }
    else st2

/-- The status message written when a circle is committed, app.js line 125. -/
noncomputable def circleAddedMsg (cx cy r : ℝ) : String :=
  "Circle added — centre (" ++ toString (round cx) ++ ", " ++ toString (round cy)
    ++ "), radius " ++ toString (round r) ++ "px."

/-- The mouseup handler, app.js lines 111-127: if a drag is active it ends it
and clears the preview; with the circle tool, a drag of length at least 2
appends one committed circle to the drawing layer. -/
noncomputable def mouseup (st : AppState) (pt : Point) : AppState :=
  if st.dragging = false then st
  else
    let st1 := { st with dragging := false, previewLayer := [] }
    if st1.tool = "circle" then
      let dx := pt.x - st1.startX
      let dy := pt.y - st1.startY
      let r := hypot dx dy
      if r < 2 then st1
      else
        let circle := drawCircle st1 st1.startX st1.startY r noOpts
        { st1 with
          drawingLayer := st1.drawingLayer ++ [circle]
          statusMsg := circleAddedMsg st1.startX st1.startY r }
    else st1

/-- The mouseleave handler, app.js lines 129-135. -/
def mouseleave (st : AppState) : AppState :=
  let st1 :=
    if st.dragging then { st with dragging := false, previewLayer := ([] : List Circle) }
    else st
  { st1 with coords := "" }

/-- The circle-tool button handler, app.js lines 139-142. -/
def selectCircleTool (st : AppState) : AppState :=
  { st with tool := "circle"
            statusMsg := "Click and drag on the canvas to draw a circle." }

/-- The fill-color input handler, app.js lines 144-146. -/
def setFillColor (st : AppState) (v : String) : AppState :=
  { st with fillColor := v }

/-- The stroke-color input handler, app.js lines 148-150. -/
def setStrokeColor (st : AppState) (v : String) : AppState :=
  { st with strokeColor := v }

/-- The stroke-width input handler, app.js lines 154-157 (the numeric value of
the slider). -/
def setStrokeWidth (st : AppState) (v : ℝ) : AppState :=
  { st with strokeWidth := v }

/-- The clear button handler, app.js lines 159-163. -/
def clearClick (st : AppState) : AppState :=
  { st with drawingLayer := []
            previewLayer := []
            statusMsg := "Canvas cleared." }

/-- Modelled from the spec: the document structure of the canvas element.  The
repository ships no index.html under src/, but the spec describes the canvas as
showing a live preview shape over the committed layer, so the canvas vector
document contains the committed drawing layer followed by the transient preview
layer.  `XMLSerializer.serializeToString(canvas)` therefore serializes the
shape elements of both layers, in this order. -/
def canvasShapes (st : AppState) : List Circle :=
  st.drawingLayer ++ st.previewLayer

/-- The number of shape elements in the exported SVG document: the export
button (app.js lines 167-173) serializes the whole canvas. -/
def exportSvgShapeCount (st : AppState) : ℕ :=
  (canvasShapes st).length

/-- The SVG export button handler, app.js lines 167-173: serializes the canvas
and triggers a download; the only state change is the status message. -/
def exportSvgClick (st : AppState) : AppState :=
  { st with statusMsg := "SVG exported." }

/-- The fixed page width of the PDF export, app.js line 187 (A4 landscape
width in mm). -/
def pdfMmWidth : ℝ := 297

/-- The page height chosen by the PDF export, app.js line 188:
`Math.round(svgHeight / svgWidth * mmWidth)`. -/
noncomputable def pdfMmHeight (svgWidth svgHeight : ℝ) : ℤ :=
  round (svgHeight / svgWidth * pdfMmWidth)

/-- The status message shown when the PDF export throws, app.js line 201. -/
def pdfFailMsg : String := "PDF export failed — see console for details."

/-- The PDF export button handler, app.js lines 177-203.  The body runs inside
a try/catch; `outcome` is the result of the external jsPDF calls, which may
throw.  On success the status reports the export, on an exception the catch
block reports the failure; nothing else in the state is touched. -/
def exportPdfClick (st : AppState) (outcome : Except Unit Unit) : AppState :=
  match outcome with
  | Except.ok _ => { st with statusMsg := "PDF exported." }
  | Except.error _ => { st with statusMsg := pdfFailMsg }

/-- Every event the application reacts to. -/
inductive Event where
  | mousedown (button : ℕ) (pt : Point)
  | mousemove (pt : Point)
  | mouseup (pt : Point)
  | mouseleave
  | selectCircleTool
  | setFillColor (v : String)
  | setStrokeColor (v : String)
  | setStrokeWidth (v : ℝ)
  | clearClick
  | exportSvgClick
  | exportPdfClick (outcome : Except Unit Unit)

/-- The transition function of the application: one step per incoming event. -/
noncomputable def step (st : AppState) : Event → AppState
  | Event.mousedown b pt => mousedown st b pt
  | Event.mousemove pt => mousemove st pt
  | Event.mouseup pt => mouseup st pt
  | Event.mouseleave => mouseleave st
  | Event.selectCircleTool => selectCircleTool st
  | Event.setFillColor v => setFillColor st v
  | Event.setStrokeColor v => setStrokeColor st v
  | Event.setStrokeWidth v => setStrokeWidth st v
  | Event.clearClick => clearClick st
  | Event.exportSvgClick => exportSvgClick st
  | Event.exportPdfClick oc => exportPdfClick st oc

/-- A concrete state in the middle of a drag that started at the origin, used
to instantiate the theorems below at concrete inputs. -/
noncomputable def demoDragState : AppState :=
  { initState with dragging := true }

/-- A concrete circle element, used to build concrete layer contents. -/
noncomputable def demoCircle : Circle :=
  drawCircle initState 0 0 1 noOpts

/-- A concrete state whose preview layer holds one shape while the committed
layer is empty. -/
noncomputable def previewOnlyState : AppState :=
  { initState with previewLayer := [demoCircle] }

end PNW

namespace PNW

/-! Helper lemmas shared by several of the results below. -/

lemma data_circle_lit :
    "Circle added — centre (".data = 'C' :: "ircle added — centre (".data := rfl

lemma data_pdf_lit :
    pdfFailMsg.data = 'P' :: "DF export failed — see console for details.".data := rfl

lemma circleAddedMsg_ne_pdfFailMsg (cx cy r : ℝ) :
    circleAddedMsg cx cy r ≠ pdfFailMsg := by
  intro h
  have h2 := congrArg (fun s => s.data.head?) h
  simp only [circleAddedMsg, String.data_append, data_circle_lit, data_pdf_lit,
    List.cons_append, List.head?_cons] at h2
  exact absurd h2 (by decide)

lemma mouseup_eq_commit (st : AppState) (pt : Point)
    (hdrag : st.dragging = true) (htool : st.tool = "circle")
    (hr : 2 ≤ hypot (pt.x - st.startX) (pt.y - st.startY)) :
    mouseup st pt =
      { st with
        dragging := false
        previewLayer := []
        drawingLayer := st.drawingLayer ++
          [{ cx := st.startX, cy := st.startY
             r := max 1 (hypot (pt.x - st.startX) (pt.y - st.startY))
             fill := st.fillColor, stroke := st.strokeColor
             strokeWidth := st.strokeWidth }]
        statusMsg := circleAddedMsg st.startX st.startY
          (hypot (pt.x - st.startX) (pt.y - st.startY)) } := by
  have hnot : ¬ hypot (pt.x - st.startX) (pt.y - st.startY) < 2 := not_lt.2 hr
  simp [mouseup, drawCircle, noOpts, hdrag, htool, hnot]

lemma mousemove_eq_preview (st : AppState) (pt : Point)
    (hdrag : st.dragging = true) (htool : st.tool = "circle") :
    mousemove st pt =
      { st with
        coords := "x: " ++ toString (round pt.x) ++ "  y: " ++ toString (round pt.y)
        previewLayer :=
          [{ cx := st.startX, cy := st.startY
             r := max 1 (hypot (pt.x - st.startX) (pt.y - st.startY))
             fill := st.fillColor ++ "99", stroke := st.strokeColor
             strokeWidth := st.strokeWidth }] } := by
  simp [mousemove, drawCircle, hdrag, htool]

lemma demo_hypot_34 :
    hypot ((Point.mk 3 4).x - demoDragState.startX)
      ((Point.mk 3 4).y - demoDragState.startY) = 5 := by
  show hypot (3 - demoDragState.startX) (4 - demoDragState.startY) = 5
  simp only [demoDragState, initState]
  unfold hypot
  have h : ((3:ℝ) - 0) ^ 2 + ((4:ℝ) - 0) ^ 2 = 5 ^ 2 := by norm_num
  rw [h, Real.sqrt_sq (by norm_num : (0:ℝ) ≤ 5)]

lemma demo_hypot_10 :
    hypot ((Point.mk 1 0).x - demoDragState.startX)
      ((Point.mk 1 0).y - demoDragState.startY) = 1 := by
  show hypot (1 - demoDragState.startX) (0 - demoDragState.startY) = 1
  simp only [demoDragState, initState]
  unfold hypot
  norm_num

end PNW

namespace PNW

/-- C1: when an active circle-tool drag that started at `(st.startX, st.startY)`
ends with a mouseup at `pt` and a shape is committed (drag length at least 2),
the committed circle carries radius attribute `max 1 d`, where `d` is the
Euclidean distance between the start and end points; and `drawCircle` always
stores `max 1 r` as the radius attribute of the element it creates. -/
theorem committed_radius_clamped_euclidean (st : AppState) (pt : Point)
    (hdrag : st.dragging = true) (htool : st.tool = "circle")
    (hr : 2 ≤ hypot (pt.x - st.startX) (pt.y - st.startY)) :
    (∃ c : Circle, (mouseup st pt).drawingLayer = st.drawingLayer ++ [c] ∧
        c.r = max 1 (hypot (pt.x - st.startX) (pt.y - st.startY))) ∧
    ∀ (st1 : AppState) (cx cy r : ℝ) (opts : Opts),
      (drawCircle st1 cx cy r opts).r = max 1 r := by
  refine ⟨?_, fun _ _ _ _ _ => rfl⟩
  rw [mouseup_eq_commit st pt hdrag htool hr]
  exact ⟨_, rfl, rfl⟩

/-- C1 witness: the theorem instantiated at a drag from the origin to the
point (3, 4), whose length is 5. -/
theorem committed_radius_clamped_euclidean_witness :
    demoDragState.dragging = true ∧ demoDragState.tool = "circle" ∧
    2 ≤ hypot ((Point.mk 3 4).x - demoDragState.startX)
        ((Point.mk 3 4).y - demoDragState.startY) ∧
    ((∃ c : Circle,
        (mouseup demoDragState (Point.mk 3 4)).drawingLayer =
          demoDragState.drawingLayer ++ [c] ∧
        c.r = max 1 (hypot ((Point.mk 3 4).x - demoDragState.startX)
          ((Point.mk 3 4).y - demoDragState.startY))) ∧
      ∀ (st1 : AppState) (cx cy r : ℝ) (opts : Opts),
        (drawCircle st1 cx cy r opts).r = max 1 r) := by
  have h5 : 2 ≤ hypot ((Point.mk 3 4).x - demoDragState.startX)
      ((Point.mk 3 4).y - demoDragState.startY) := by
    rw [demo_hypot_34]; norm_num
  exact ⟨rfl, rfl, h5,
    committed_radius_clamped_euclidean demoDragState (Point.mk 3 4) rfl rfl h5⟩

/-- C2: a mouseup that ends a drag of Euclidean length strictly below 2 leaves
the committed drawing layer unchanged (the commit is skipped). -/
theorem short_drag_no_commit (st : AppState) (pt : Point)
    (h : hypot (pt.x - st.startX) (pt.y - st.startY) < 2) :
    (mouseup st pt).drawingLayer = st.drawingLayer := by
  simp only [mouseup]
  split_ifs with h1 h2
  · rfl
  · rfl
  · rfl

/-- C2 witness: a drag from the origin to (1, 0) has length 1 < 2 and commits
nothing. -/
theorem short_drag_no_commit_witness :
    hypot ((Point.mk 1 0).x - demoDragState.startX)
        ((Point.mk 1 0).y - demoDragState.startY) < 2 ∧
    (mouseup demoDragState (Point.mk 1 0)).drawingLayer =
      demoDragState.drawingLayer := by
  have h1 : hypot ((Point.mk 1 0).x - demoDragState.startX)
      ((Point.mk 1 0).y - demoDragState.startY) < 2 := by
    rw [demo_hypot_10]; norm_num
  exact ⟨h1, short_drag_no_commit demoDragState (Point.mk 1 0) h1⟩

/-- C3 counterexample: in a state whose preview layer holds one shape while the
committed layer is empty, the exported SVG document (the serialized canvas,
which contains both layers) holds one shape element while the committed layer
holds zero, so the exported count does not equal the committed count. -/
theorem export_count_mismatch_on_preview :
    ¬ exportSvgShapeCount previewOnlyState =
        previewOnlyState.drawingLayer.length := by
  simp [exportSvgShapeCount, canvasShapes, previewOnlyState, initState]

/-- C3 (amended): whenever the preview layer is empty — as it is after every
mouseup, mouseleave or clear — the exported SVG document contains exactly as
many shape elements as the committed drawing layer. -/
theorem export_count_eq_committed_of_empty_preview (st : AppState)
    (h : st.previewLayer = []) :
    exportSvgShapeCount st = st.drawingLayer.length := by
  simp [exportSvgShapeCount, canvasShapes, h]

/-- C3 witness: the amended theorem instantiated at the initial state, whose
preview layer is empty. -/
theorem export_count_eq_committed_of_empty_preview_witness :
    initState.previewLayer = [] ∧
    exportSvgShapeCount initState = initState.drawingLayer.length :=
  ⟨rfl, export_count_eq_committed_of_empty_preview initState rfl⟩

/-- C4: the clear operation empties both the committed drawing layer and the
preview layer, whatever state the application is in. -/
theorem clear_empties_both_layers (st : AppState) :
    (clearClick st).drawingLayer = [] ∧ (clearClick st).previewLayer = [] :=
  ⟨rfl, rfl⟩

end PNW

namespace PNW

/-- C5: the committed drawing layer is append-only.  Every event the
application reacts to either appends exactly one circle at the end of the
committed sequence, empties it entirely (the clear button), or leaves it
unchanged; no event removes or modifies an individual committed shape. -/
theorem drawing_layer_append_only (st : AppState) (ev : Event) :
    (∃ c : Circle, (step st ev).drawingLayer = st.drawingLayer ++ [c]) ∨
    (step st ev).drawingLayer = [] ∨
    (step st ev).drawingLayer = st.drawingLayer := by
  cases ev with
  | mousedown b pt =>
      right; right
      simp only [step, mousedown]
      split_ifs <;> rfl
  | mousemove pt =>
      right; right
      simp only [step, mousemove]
      split_ifs <;> rfl
  | mouseup pt =>
      simp only [step, mouseup]
      split_ifs with h1 h2 h3
      · right; right; rfl
      · right; right; rfl
      · left; exact ⟨_, rfl⟩
      · right; right; rfl
  | mouseleave =>
      right; right
      simp only [step, mouseleave]
      split_ifs <;> rfl
  | selectCircleTool => right; right; rfl
  | setFillColor v => right; right; rfl
  | setStrokeColor v => right; right; rfl
  | setStrokeWidth v => right; right; rfl
  | clearClick => right; left; rfl
  | exportSvgClick => right; right; rfl
  | exportPdfClick oc =>
      right; right
      cases oc with
      | ok u => rfl
      | error u => rfl

/-- C6: when the PDF export throws, the exception is caught: the status
message reports the failure and both layers are untouched.  Moreover no other
event can produce the failure status message, so the PDF export is the only
operation with a failure path (every handler is a total function of its
inputs by construction). -/
theorem pdf_only_failure_path (st : AppState) (e : Unit) :
    ((exportPdfClick st (Except.error e)).statusMsg = pdfFailMsg ∧
     (exportPdfClick st (Except.error e)).drawingLayer = st.drawingLayer ∧
     (exportPdfClick st (Except.error e)).previewLayer = st.previewLayer) ∧
    ∀ ev : Event, (∀ oc : Except Unit Unit, ev ≠ Event.exportPdfClick oc) →
      st.statusMsg ≠ pdfFailMsg → (step st ev).statusMsg ≠ pdfFailMsg := by
  refine ⟨⟨rfl, rfl, rfl⟩, ?_⟩
  intro ev hev hst
  cases ev with
  | mousedown b pt =>
      simp only [step, mousedown]
      split_ifs <;> exact hst
  | mousemove pt =>
      simp only [step, mousemove]
      split_ifs <;> exact hst
  | mouseup pt =>
      simp only [step, mouseup]
      split_ifs with h1 h2 h3
      · exact hst
      · exact hst
      · exact circleAddedMsg_ne_pdfFailMsg _ _ _
      · exact hst
  | mouseleave =>
      simp only [step, mouseleave]
      split_ifs <;> exact hst
  | selectCircleTool =>
      intro hcontra
      simp only [step, selectCircleTool] at hcontra
      exact absurd hcontra (by decide)
  | setFillColor v => exact hst
  | setStrokeColor v => exact hst
  | setStrokeWidth v => exact hst
  | clearClick =>
      intro hcontra
      simp only [step, clearClick] at hcontra
      exact absurd hcontra (by decide)
  | exportSvgClick =>
      intro hcontra
      simp only [step, exportSvgClick] at hcontra
      exact absurd hcontra (by decide)
  | exportPdfClick oc => exact absurd rfl (hev oc)

/-- C6 witness: at the initial state, a throwing PDF export reports the
failure message, while for instance the clear operation cannot produce it. -/
theorem pdf_only_failure_path_witness :
    (exportPdfClick initState (Except.error ())).statusMsg = pdfFailMsg ∧
    initState.statusMsg ≠ pdfFailMsg ∧
    (step initState Event.clearClick).statusMsg ≠ pdfFailMsg := by
  have h := pdf_only_failure_path initState ()
  refine ⟨h.1.1, by decide, ?_⟩
  exact h.2 Event.clearClick (fun oc hoc => Event.noConfusion hoc) (by decide)

/-- C7 counterexample: for viewBox width 594 and height 1, the page height is
`round (1 / 594 * 297) = round (1 / 2) = 1` mm, and `1 / 297 ≠ 1 / 594`, so
the page dimensions do not satisfy `height / 297 = H / W` exactly. -/
theorem pdf_aspect_not_exact :
    ¬ ((pdfMmHeight 594 1 : ℝ) / 297 = 1 / 594) := by
  have h : pdfMmHeight 594 1 = 1 := by
    unfold pdfMmHeight pdfMmWidth
    norm_num [round_eq]
  rw [h]
  norm_num

/-- C7 (amended): the page is 297 mm wide and its height is `H / W * 297`
rounded to the nearest integer millimetre, so the aspect ratio is preserved up
to rounding (the height differs from `H / W * 297` by at most half a
millimetre), and exactly whenever `H / W * 297` is an integer. -/
theorem pdf_page_dims_round_aspect (W H : ℝ) :
    pdfMmWidth = 297 ∧
    pdfMmHeight W H = round (H / W * 297) ∧
    |((pdfMmHeight W H : ℤ) : ℝ) - H / W * 297| ≤ 1 / 2 ∧
    ∀ n : ℤ, H / W * 297 = (n : ℝ) →
      ((pdfMmHeight W H : ℤ) : ℝ) / 297 = H / W := by
  refine ⟨rfl, rfl, ?_, ?_⟩
  · unfold pdfMmHeight pdfMmWidth
    rw [abs_sub_comm]
    exact abs_sub_round _
  · intro n hn
    have h1 : pdfMmHeight W H = n := by
      unfold pdfMmHeight pdfMmWidth
      rw [hn]
      exact round_intCast n
    rw [h1, ← hn, mul_div_assoc, div_self (by norm_num : (297:ℝ) ≠ 0), mul_one]

/-- C7 witness: for viewBox 297 × 210 (the A4 landscape ratio) the rounding is
exact and the page dimensions preserve the aspect ratio. -/
theorem pdf_page_dims_round_aspect_witness :
    (210 : ℝ) / 297 * 297 = ((210 : ℤ) : ℝ) ∧
    ((pdfMmHeight 297 210 : ℤ) : ℝ) / 297 = 210 / 297 := by
  have hn : (210 : ℝ) / 297 * 297 = ((210 : ℤ) : ℝ) := by norm_num
  exact ⟨hn, (pdf_page_dims_round_aspect 297 210).2.2.2 210 hn⟩

end PNW

namespace PNW

/-- C8: during an active circle-tool drag, every mousemove renders the preview
circle with the semi-transparent fill `state.fillColor ++ "99"`, while the
circle committed by a mouseup (for drags of length at least 2) carries the
opaque current fill color. -/
theorem preview_translucent_commit_opaque (st : AppState)
    (hdrag : st.dragging = true) (htool : st.tool = "circle") :
    (∀ pt : Point, ∃ c : Circle, (mousemove st pt).previewLayer = [c] ∧
        c.fill = st.fillColor ++ "99") ∧
    ∀ pt : Point, 2 ≤ hypot (pt.x - st.startX) (pt.y - st.startY) →
      ∃ c : Circle, (mouseup st pt).drawingLayer = st.drawingLayer ++ [c] ∧
        c.fill = st.fillColor := by
  constructor
  · intro pt
    rw [mousemove_eq_preview st pt hdrag htool]
    exact ⟨_, rfl, rfl⟩
  · intro pt hr
    rw [mouseup_eq_commit st pt hdrag htool hr]
    exact ⟨_, rfl, rfl⟩

/-- C8 witness: the theorem instantiated at a drag from the origin towards
(3, 4), of length 5. -/
theorem preview_translucent_commit_opaque_witness :
    demoDragState.dragging = true ∧ demoDragState.tool = "circle" ∧
    2 ≤ hypot ((Point.mk 3 4).x - demoDragState.startX)
        ((Point.mk 3 4).y - demoDragState.startY) ∧
    (∃ c : Circle, (mousemove demoDragState (Point.mk 3 4)).previewLayer = [c] ∧
        c.fill = demoDragState.fillColor ++ "99") ∧
    ∃ c : Circle, (mouseup demoDragState (Point.mk 3 4)).drawingLayer =
        demoDragState.drawingLayer ++ [c] ∧ c.fill = demoDragState.fillColor := by
  have h5 : 2 ≤ hypot ((Point.mk 3 4).x - demoDragState.startX)
      ((Point.mk 3 4).y - demoDragState.startY) := by
    rw [demo_hypot_34]; norm_num
  have h := preview_translucent_commit_opaque demoDragState rfl rfl
  exact ⟨rfl, rfl, h5, h.1 (Point.mk 3 4), h.2 (Point.mk 3 4) h5⟩

/-- C9: the circle committed by a mouseup is centred at the stored drag start
point, not at the drag end point or midpoint; and a primary-button mousedown
stores as start point exactly the event position converted to document
coordinates by `svgPoint`. -/
theorem committed_center_is_drag_start (st : AppState) (pt : Point)
    (hdrag : st.dragging = true) (htool : st.tool = "circle")
    (hr : 2 ≤ hypot (pt.x - st.startX) (pt.y - st.startY)) :
    (∃ c : Circle, (mouseup st pt).drawingLayer = st.drawingLayer ++ [c] ∧
        c.cx = st.startX ∧ c.cy = st.startY) ∧
    ∀ (st1 : AppState) (g : CanvasGeom) (cX cY : ℝ),
      (mousedown st1 0 (svgPoint g cX cY)).startX = (svgPoint g cX cY).x ∧
      (mousedown st1 0 (svgPoint g cX cY)).startY = (svgPoint g cX cY).y := by
  constructor
  · rw [mouseup_eq_commit st pt hdrag htool hr]
    exact ⟨_, rfl, rfl, rfl⟩
  · intro st1 g cX cY
    exact ⟨rfl, rfl⟩

/-- C9 witness: the theorem instantiated at a drag from the origin to (3, 4). -/
theorem committed_center_is_drag_start_witness :
    demoDragState.dragging = true ∧ demoDragState.tool = "circle" ∧
    2 ≤ hypot ((Point.mk 3 4).x - demoDragState.startX)
        ((Point.mk 3 4).y - demoDragState.startY) ∧
    ∃ c : Circle, (mouseup demoDragState (Point.mk 3 4)).drawingLayer =
        demoDragState.drawingLayer ++ [c] ∧
      c.cx = demoDragState.startX ∧ c.cy = demoDragState.startY := by
  have h5 : 2 ≤ hypot ((Point.mk 3 4).x - demoDragState.startX)
      ((Point.mk 3 4).y - demoDragState.startY) := by
    rw [demo_hypot_34]; norm_num
  exact ⟨rfl, rfl, h5,
    (committed_center_is_drag_start demoDragState (Point.mk 3 4) rfl rfl h5).1⟩

/-- C10: a mousedown with a non-primary button leaves the entire application
state unchanged (drag flag, start coordinates, both layers and all messages),
and a mouseup arriving while no drag is active also leaves the entire state
unchanged, so it commits nothing. -/
theorem nonprimary_mousedown_noop (st : AppState) (button : ℕ) (pt : Point)
    (hb : button ≠ 0) :
    mousedown st button pt = st ∧
    (st.dragging = false → ∀ q : Point, mouseup st q = st) := by
  constructor
  · simp [mousedown, hb]
  · intro hd q
    simp [mouseup, hd]

/-- C10 witness: a right-button (button 2) mousedown at the origin leaves the
initial state unchanged, and a mouseup at (1, 1) in the non-dragging initial
state also leaves it unchanged. -/
theorem nonprimary_mousedown_noop_witness :
    (2 : ℕ) ≠ 0 ∧ mousedown initState 2 (Point.mk 0 0) = initState ∧
    initState.dragging = false ∧ mouseup initState (Point.mk 1 1) = initState := by
  have h := nonprimary_mousedown_noop initState 2 (Point.mk 0 0) (by decide)
  exact ⟨by decide, h.1, rfl, h.2 rfl (Point.mk 1 1)⟩

end PNW
